import Mathlib

/-!
Verification development for the pyLinkJS_Drawing repository.

Shallow embedding of `pyLinkJS_Drawing/drawingPlugin.py` and
`pyLinkJS_Drawing/layerController.py`.  Python floats are modelled by `ℚ`
(the claims concern exact clamping/offset arithmetic, not rounding),
Python `None` by `Option`, a raised exception by an `Option`-valued
function returning `none`, and Python dictionaries by ordered association
lists (insertion order is dict iteration order).
-/

namespace PyLinkJSDrawing

/-! ### FlightPlan (drawingPlugin.py)

`FlightPlan.__init__` creates `fprops` with exactly the keys
`start_time`, `pause_time`, `duration` (subclasses may add more via
kwargs).  The working dictionary `props` is a deep copy of `fprops`.
The key `end_time` is read by `resume` and `is_active` but is never
created by `__init__` or `start_forward_flight`; we therefore model it
as `Option (Option ℚ)`: the outer `none` means the key is absent from
the dictionary (reading it raises `KeyError`), `some none` means the key
is present with value `None`.
-/

structure FPProps where
  start_time : Option ℚ
  pause_time : Option ℚ
  duration : Option ℚ
  end_time : Option (Option ℚ)
deriving DecidableEq

/-- `FlightPlan._calculate_time_from_zero(self, t)`:
if paused, returns `pause_time - start_time` (a `TypeError`, modelled as
`none`, if `start_time` is `None`); if not started or `t <= start_time`,
returns `0`; otherwise returns the elapsed time `t - start_time` capped
at `duration` when a duration is set. -/
def calculate_time_from_zero (p : FPProps) (t : ℚ) : Option ℚ :=
  match p.pause_time, p.start_time with
  | some pt, some st => some (pt - st)
  | some _, none => none
  | none, none => some 0
  | none, some st =>
    if t ≤ st then some 0
    else
      match p.duration with
      | none => some (t - st)
      | some d => some (min (t - st) d)

/-- Position of a trajectory with pure position law `custom`
(`custom_calculate_position`) evaluated at working time
`_calculate_time_from_zero(t)`. -/
def positionAt (custom : ℚ → List ℚ) (p : FPProps) (t : ℚ) : Option (List ℚ) :=
  (calculate_time_from_zero p t).map custom

/-- `FlightPlan.pause(self)`: `self.props['pause_time'] = time.time()`;
the current wall time is passed explicitly. -/
def pause (p : FPProps) (now : ℚ) : FPProps :=
  { p with pause_time := some now }

/-- `FlightPlan.start_forward_flight(self, start_time)`:
`self.props = deepcopy(self.fprops); self.props['start_time'] = start_time`
(the `-99999999` default resolves to the current wall time; the resolved
start time is passed explicitly). -/
def start_forward_flight (fprops : FPProps) (st : ℚ) : FPProps :=
  { fprops with start_time := some st }

/-- `FlightPlan.resume(self)`:
`delta = time.time() - props['pause_time']` (a `TypeError` if
`pause_time` is `None`), `props['start_time'] += delta` (a `TypeError`
if `None`), `props['end_time'] += delta` (a `KeyError` if the key is
absent, a `TypeError` if its value is `None`), then
`props['pause_time'] = None`.  Any raised error is modelled as `none`. -/
def resume (p : FPProps) (now : ℚ) : Option FPProps :=
  match p.pause_time with
  | none => none
  | some pt =>
    match p.start_time with
    | none => none
    | some st =>
      match p.end_time with
      | none => none
      | some none => none
      | some (some et) =>
        some { start_time := some (st + (now - pt))
             , pause_time := none
             , duration := p.duration
             , end_time := some (some (et + (now - pt))) }

/-- The `fprops` dictionary created by `FlightPlan.__init__` with the
default `duration=None`: `start_time`, `pause_time` and `duration` are
all `None` and there is no `end_time` key. -/
def baseFProps : FPProps :=
  { start_time := none, pause_time := none, duration := none, end_time := none }

/-! ### FlightPlan.calculate_position and the render-object parent chain

`calculate_position(self, renderObj, t)` only consults the chain of
parents of `renderObj` (each node carrying its own flight plan), so the
relevant tree fragment is the chain from the node to the root.  Each
link carries the node's working props, its trajectory position law
(`custom_calculate_position`) and the node's `props['scale']`.
-/

inductive RChain where
  | root (props : FPProps) (custom : ℚ → List ℚ) (scale : ℚ)
  | child (props : FPProps) (custom : ℚ → List ℚ) (scale : ℚ) (parent : RChain)

/-- The loop `for i in range(0, len(ppos)): retval.append(positions[i] + ppos[i])`:
raises `IndexError` (modelled as `none`) when `positions` is shorter than
`ppos`; otherwise the result has the parent's length, adding pointwise. -/
def addPos (positions ppos : List ℚ) : Option (List ℚ) :=
  if positions.length < ppos.length then none
  else some (List.zipWith (fun a b => a + b) positions ppos)

/-- `FlightPlan.calculate_position(self, renderObj, t)`:
computes the local position at the working time; if the render object
has a parent, scales it by `renderObj.props['scale']` and adds the
parent's `calculate_position` at the same `t`; with no parent the local
position is returned unscaled. -/
def RChain.calculate_position : RChain → ℚ → Option (List ℚ)
  | .root props custom _, t =>
    (calculate_time_from_zero props t).map custom
  | .child props custom scale parent, t => do
    let tz ← calculate_time_from_zero props t
    let positions := (custom tz).map (fun x => x * scale)
    let ppos ← RChain.calculate_position parent t
    addPos positions ppos

/-! ### Hit testing (EllipseObject.point_in_obj / RenderObject._point_in_obj_children)

`EllipseObject.point_in_obj(self, x, y, t)` computes the node's position
(`get_positions`, here abstracted as the node's full position function of
time), normalizes the offset by `radius * scale`, and **returns `self`**
when the normalized squared distance is at most 1; otherwise it delegates
to `_point_in_obj_children`, which returns the **first child whose subtree
reports a hit**, or `None`.  The return value is a single render object or
`None`, never a list.
-/

inductive EllipseTree where
  | node (pos : ℚ → ℚ × ℚ) (radiusX radiusY scale : ℚ) (children : List EllipseTree)

mutual

/-- `EllipseObject.point_in_obj(self, x, y, t)`. -/
def EllipseTree.point_in_obj (x y t : ℚ) : EllipseTree → Option EllipseTree
  | .node pos rx ry sc children =>
    let p := pos t
    let dx := (x - p.1) / (rx * sc)
    let dy := (y - p.2) / (ry * sc)
    if dx * dx + dy * dy - 1 ≤ 0 then
      some (.node pos rx ry sc children)
    else
      point_in_obj_children x y t children

/-- `RenderObject._point_in_obj_children(self, x, y, t)`: first child hit
in insertion order, else `None`. -/
def point_in_obj_children (x y t : ℚ) : List EllipseTree → Option EllipseTree
  | [] => none
  | c :: rest =>
    match EllipseTree.point_in_obj x y t c with
    | some hit => some hit
    | none => point_in_obj_children x y t rest

end

/-- The spec's hit-test example: a circle of radius 10 at (100, 100)
(static flight plan, scale 1, no children). -/
def circleNode : EllipseTree := .node (fun _ => (100, 100)) 10 10 1 []

/-! ### layerController.py: data sources and the scheduler loop

`LayerDataSource` carries a cooldown period, the last dataset, the last
fetch timestamp (`None` until the first successful fetch) and the next
eligible fire time (`None` disables firing / marks a fetch in flight).
The dataset type is abstract (`DF`); times are wall-clock rationals.
-/

structure LayerDataSource (DF : Type) where
  cooldown_period : ℚ
  data : DF
  data_last_fetch_time : Option ℚ
  next_fire_time : Option ℚ

/-- A renderer as seen by the scheduler: its ordered subscription list. -/
structure LayerRenderer where
  subscribed_datasources : List String
deriving DecidableEq

/-- Association-list lookup for Python dict access `d[k]`
(`none` models a `KeyError`). -/
def alookup {β : Type} (k : String) : List (String × β) → Option β
  | [] => none
  | (k2, v) :: rest => if k2 = k then some v else alookup k rest

/-- In-place value replacement for key `k` (the Python code mutates the
stored object; the registry keys are unchanged). -/
def aupdate {β : Type} (k : String) (v : β) : List (String × β) → List (String × β)
  | [] => []
  | (k2, v2) :: rest =>
    (if k2 = k then (k2, v) else (k2, v2)) :: aupdate k v rest

/-- `LayerDataSource.set_data(self, df, data_fetch_time=None)`:
installs the dataset and stamps the fetch time (the resolved
`datetime.now()` is passed explicitly as `now`). -/
def set_data {DF : Type} (ds : LayerDataSource DF) (df : DF) (now : ℚ) :
    LayerDataSource DF :=
  { ds with data := df, data_last_fetch_time := some now }

/-- Dispatch check from `LayerController._thread_worker`:
`if (ds.next_fire_time is not None) and (current_time >= ds.next_fire_time)`
then clear `next_fire_time` (so the source cannot refire while the fetch
is in flight) and submit the fetch.  Returns the updated source and
whether a fetch was dispatched. -/
def dispatchCheck {DF : Type} (ds : LayerDataSource DF) (current_time : ℚ) :
    LayerDataSource DF × Bool :=
  match ds.next_fire_time with
  | none => (ds, false)
  | some nft =>
    if nft ≤ current_time then ({ ds with next_fire_time := none }, true)
    else (ds, false)

/-- Completion handling for one finished future in
`LayerController._thread_worker`: `try: ds.set_data(fut.result()) except: log`
(a raising fetch, modelled by `result = none`, leaves the source
untouched and is only logged), then — outside the `try` —
`ds.next_fire_time = ds.data_last_fetch_time + timedelta(seconds=max(cooldown, minimum))`,
which raises a `TypeError` (modelled as `none`) when
`data_last_fetch_time` is still `None`. -/
def processCompletion {DF : Type} (ds : LayerDataSource DF) (result : Option DF)
    (now mc : ℚ) : Option (LayerDataSource DF) :=
  let ds1 := match result with
    | some df => set_data ds df now
    | none => ds
  match ds1.data_last_fetch_time with
  | some lt => some { ds1 with next_fire_time := some (lt + max ds1.cooldown_period mc) }
  | none => none

/-- The inner loop `for dr in renderers.values(): if ds.name in
dr.subscribed_datasources: dirty_renderers.add(dr.name)` — the set is
modelled as a duplicate-free list to which a name is appended only if
absent. -/
def markDirty (k : String) : List (String × LayerRenderer) → List String → List String
  | [], dirty => dirty
  | (rn, r) :: rest, dirty =>
    markDirty k rest
      (if k ∈ r.subscribed_datasources ∧ rn ∉ dirty then dirty ++ [rn] else dirty)

/-- The completion-polling phase of one scheduler tick: for every ready
future `(k, result)` in order, update the source registry and accumulate
the dirty-renderer set.  A failing bookkeeping step (`processCompletion`
returning `none`, or a vanished registry key) aborts the loop thread,
modelled as `none`. -/
def processCompletions {DF : Type} (renderers : List (String × LayerRenderer))
    (now mc : ℚ) :
    List (String × LayerDataSource DF) → List (String × Option DF) → List String →
    Option (List (String × LayerDataSource DF) × List String)
  | sources, [], dirty => some (sources, dirty)
  | sources, (k, result) :: rest, dirty =>
    (alookup k sources).bind (fun ds =>
      (processCompletion ds result now mc).bind (fun ds2 =>
        processCompletions renderers now mc (aupdate k ds2 sources) rest
          (markDirty k renderers dirty)))

/-- `data_dict = {dn: self._layer_datasources[dn].data for dn in
dr.subscribed_datasources}` — a subscription naming a source absent from
the registry raises an uncaught `KeyError`, modelled as `none`. -/
def buildDataDict {DF : Type} (subs : List String)
    (sources : List (String × LayerDataSource DF)) : Option (List (String × DF)) :=
  match subs with
  | [] => some []
  | dn :: rest =>
    (alookup dn sources).bind (fun ds =>
      (buildDataDict rest sources).bind (fun tail =>
        some ((dn, ds.data) :: tail)))

/-- The dirty-renderer update phase of one scheduler tick:
`for name in list(dirty_renderers): dr = renderers[name]; data_dict = ...;
try: dr.on_data_changed(data_dict) except: log`.  The recompute step is
abstracted as `recompute` (its `none` models a raising
`on_data_changed`, which is caught and logged — recorded as `false` in
the result); the data-dict construction is outside the `try`, so its
`KeyError` aborts the whole loop (`none`). -/
def processDirty {DF : Type} (renderers : List (String × LayerRenderer))
    (sources : List (String × LayerDataSource DF))
    (recompute : String → List (String × DF) → Option Unit) :
    List String → Option (List (String × Bool))
  | [] => some []
  | n :: rest =>
    (alookup n renderers).bind (fun dr =>
      (buildDataDict dr.subscribed_datasources sources).bind (fun dd =>
        (processDirty renderers sources recompute rest).bind (fun tail =>
          some ((n, (recompute n dd).isSome) :: tail))))

/-! ### LayerRenderer._data_dict_to_df (layerController.py)

A pandas `DataFrame` is modelled label-wise: the ordered list of row
labels, the ordered list of column labels, and a label-keyed cell
function (`none` is a missing value / `NaN`).  Rows are keyed by label,
so `df[~df.index.duplicated(keep='last')]` only dedupes the label list.
`Index.union` may sort its result in pandas; since the merge ends with
`df.loc[data_coords.index]`, which re-orders rows to the coordinate
index, only membership in the union matters and the union is modelled
as concatenation followed by a keep-last dedup (also covering the
`drop_duplicates(keep='last')` call).
-/

structure DataFrame where
  idx : List String
  cols : List String
  cell : String → String → Option ℚ

/-- Keep only the last occurrence of each label. -/
def dedupKeepLast : List String → List String
  | [] => []
  | x :: rest => if x ∈ rest then dedupKeepLast rest else x :: dedupKeepLast rest

/-- The column-assignment loop
`df_new = data_dict[k][~data_dict[k].index.duplicated(keep='last')];
for c in df_new.columns: df[c] = df_new[c]` — every column of the source
is (re)assigned wholesale, aligned on `df`'s index: rows absent from the
source's index become `NaN`. -/
def assignColumns (df src : DataFrame) : DataFrame :=
  { idx := df.idx
  , cols := df.cols ++ src.cols.filter (fun c => c ∉ df.cols)
  , cell := fun r c =>
      if c ∈ src.cols then
        (if r ∈ dedupKeepLast src.idx then src.cell r c else none)
      else df.cell r c }

/-- The source (last in dictionary order) that provides column `c`, if
any — the one whose assignment `df[c] = df_new[c]` survives. -/
def lastProvider (c : String) : List (String × DataFrame) → Option DataFrame
  | [] => none
  | kv :: rest =>
    match lastProvider c rest with
    | some src => some src
    | none => if c ∈ kv.2.cols then some kv.2 else none

/-- The index-union loop `idx = data_dict[keys[0]].index; for k in
keys[1:]: idx = idx.union(...); idx = idx.drop_duplicates(keep='last')`. -/
def unionIdx (df0 : DataFrame) (rest : List (String × DataFrame)) : List String :=
  dedupKeepLast (rest.foldl (fun acc kv => acc ++ kv.2.idx) df0.idx)

/-- The merge loop `df = pd.DataFrame(index=idx); for k in keys: ...
df[c] = df_new[c]` over the whole dictionary in key order. -/
def mergedAll (data_dict : List (String × DataFrame)) (uidx : List String) : DataFrame :=
  data_dict.foldl (fun acc kv => assignColumns acc kv.2)
    { idx := uidx, cols := [], cell := fun _ _ => none }

/-- `LayerRenderer._data_dict_to_df(cls, data_dict)`:
empty dict yields an empty frame; otherwise build the keep-last union of
all indexes, assign every source's columns in dictionary (subscription)
order, and finally restrict the rows to `data_dict['data_coords'].index`
(`.loc`, a `KeyError` — `none` — if the `data_coords` key is absent, and
likewise if a coordinate label were missing from the union index). -/
def data_dict_to_df (data_dict : List (String × DataFrame)) : Option DataFrame :=
  match data_dict with
  | [] => some { idx := [], cols := [], cell := fun _ _ => none }
  | (_, df0) :: rest =>
    (alookup "data_coords" data_dict).bind (fun coords =>
      let df := mergedAll data_dict (unionIdx df0 rest)
      if ∀ r ∈ coords.idx, r ∈ df.idx then
        some { idx := coords.idx, cols := df.cols
             , cell := fun r c => if r ∈ coords.idx then df.cell r c else none }
      else none)

/-! ### RenderObject.color_decode / color_encode / color_calculate_glow

`color_decode` strips the string, checks the `rgba(`…`)` envelope,
splits the interior on commas and parses each piece with Python
`float()`; any failure (envelope mismatch or unparseable component)
yields `[0, 0, 0, 0]`.  `float()` is modelled on its decimal core
(optional sign, digits with an optional decimal point, surrounding
whitespace); exponents and the inf/nan spellings are not needed by any
claim.  `color_encode` reads components 0–3 of its argument
(an `IndexError`, modelled as `none`, when fewer are present); the
numeric-to-text formatting is abstracted by `toString`.
-/

/-- Python `str.strip()` on the character sequence of a string. -/
def pyStrip (cs : List Char) : List Char :=
  ((cs.dropWhile Char.isWhitespace).reverse.dropWhile Char.isWhitespace).reverse

/-- Python `str.split(sep)` with a one-character separator:
`''.split(sep) == ['']`, and every separator occurrence starts a new
(possibly empty) group. -/
def pySplitOn (sep : Char) : List Char → List (List Char)
  | [] => [[]]
  | c :: rest =>
    if c = sep then [] :: pySplitOn sep rest
    else
      match pySplitOn sep rest with
      | [] => [[c]]
      | g :: gs => (c :: g) :: gs

def digitsToNat (cs : List Char) : ℕ :=
  cs.foldl (fun acc c => acc * 10 + (c.toNat - 48)) 0

def parseUnsignedFloat (cs : List Char) : Option ℚ :=
  match pySplitOn '.' cs with
  | [ip] =>
    if ip.length > 0 ∧ ip.all Char.isDigit then some (digitsToNat ip)
    else none
  | [ip, fp] =>
    if ip.all Char.isDigit ∧ fp.all Char.isDigit ∧ ip.length + fp.length > 0 then
      some ((digitsToNat ip : ℚ) + (digitsToNat fp : ℚ) / (10 ^ fp.length))
    else none
  | _ => none

/-- Python `float(s)` on its decimal core (optional sign, digits with an
optional decimal point, surrounding whitespace stripped). -/
def parseFloat (cs : List Char) : Option ℚ :=
  match pyStrip cs with
  | '-' :: rest => (parseUnsignedFloat rest).map (fun q => -q)
  | '+' :: rest => parseUnsignedFloat rest
  | stripped => parseUnsignedFloat stripped

/-- `RenderObject.color_decode(cls, rgba_string)`: total — returns the
parsed component list for a well-formed `rgba(...)` string and
`[0, 0, 0, 0]` otherwise (the `try`/`except` swallows every parse
error).  Note the result length equals the number of comma-separated
components, not necessarily 4. -/
def color_decode (rgba_string : String) : List ℚ :=
  let cs := pyStrip rgba_string.data
  if cs.take 5 = "rgba(".data ∧ cs.getLast? = some ')' then
    let inner := (cs.drop 5).dropLast
    match (pySplitOn ',' inner).mapM parseFloat with
    | some l => l
    | none => [0, 0, 0, 0]
  else [0, 0, 0, 0]

/-- `RenderObject.color_encode(cls, rgba_list)`: reads elements 0–3. -/
def color_encode (rgba_list : List ℚ) : Option String :=
  if 4 ≤ rgba_list.length then
    some ("rgba(" ++ toString (rgba_list.getD 0 0) ++ ", " ++ toString (rgba_list.getD 1 0)
      ++ ", " ++ toString (rgba_list.getD 2 0) ++ ", " ++ toString (rgba_list.getD 3 0) ++ ")")
  else none

/-- `RenderObject.color_calculate_glow(cls, rgba_string, glow_attenuation)`:
decodes the color, then `for i in range(0, 4): color_glow[i] *=
glow_attenuation[i]` — an `IndexError` (`none`) when either list has
fewer than 4 elements — and re-encodes.  `color_encode` reads exactly
channels 0–3, so elements beyond index 3 (unchanged by the loop) are
dropped here. -/
def color_calculate_glow (rgba_string : String) (glow_attenuation : List ℚ) :
    Option String :=
  let color_glow := color_decode rgba_string
  if 4 ≤ color_glow.length ∧ 4 ≤ glow_attenuation.length then
    color_encode ((List.range 4).map (fun i => color_glow.getD i 0 * glow_attenuation.getD i 0))
  else none

/-! ### Concrete instances used by witnesses and counterexamples -/

/-- A renderer `R` subscribed to both sources `s1` and `s2`. -/
def exRenderers : List (String × LayerRenderer) := [("R", ⟨["s1", "s2"]⟩)]

/-- Two sources with cooldowns 5 and 4, previously fetched at 1. -/
def exSources : List (String × LayerDataSource ℚ) :=
  [("s1", ⟨5, 0, some 1, some 2⟩), ("s2", ⟨4, 0, some 1, some 2⟩)]

/-- Both fetches complete successfully in the same tick. -/
def exCompletions : List (String × Option ℚ) := [("s1", some 11), ("s2", some 22)]

/-- `exSources` after both completions are processed at time 10 with
`minimum_cooldown = 3`. -/
def exSources2 : List (String × LayerDataSource ℚ) :=
  [("s1", ⟨5, 11, some 10, some (10 + max 5 3)⟩),
   ("s2", ⟨4, 22, some 10, some (10 + max 4 3)⟩)]

/-- Source over rows `{A, B}` providing column `X` (A ↦ 1, B ↦ 2). -/
def exDf1 : DataFrame :=
  { idx := ["A", "B"], cols := ["X"]
  , cell := fun r c =>
      if c = "X" then (if r = "A" then some 1 else if r = "B" then some 2 else none)
      else none }

/-- Source over rows `{B, C}` providing column `X` (B ↦ 20, C ↦ 30). -/
def exDf2 : DataFrame :=
  { idx := ["B", "C"], cols := ["X"]
  , cell := fun r c =>
      if c = "X" then (if r = "B" then some 20 else if r = "C" then some 30 else none)
      else none }

/-- Coordinate source with row domain `{A, B, C}`. -/
def exCoords : DataFrame := { idx := ["A", "B", "C"], cols := [], cell := fun _ _ => none }

/-- The spec's merge example: sources over `{A, B}` and `{B, C}` plus a
coordinate domain `{A, B, C}`, in subscription order. -/
def exDataDict : List (String × DataFrame) :=
  [("s1", exDf1), ("s2", exDf2), ("data_coords", exCoords)]

/-! ## Theorems -/

/-- Claim C1 (code_bug evaluation): `point_in_obj` does not return the
ordered hit-test path.  On the spec's own example — a circle of radius
10 at (100, 100) — the hit at (105, 100) returns the **single** matched
render object (`some circleNode`, not a one-element sequence), and the
miss at (115, 100) returns `None` (`none`, not an empty sequence).  The
caller `LayerApp.on_mouseup` iterates this return value (`for ro in
rolist`), which raises a `TypeError` on both a bare render object and
`None`. -/
theorem c1_point_in_obj_single_object :
    EllipseTree.point_in_obj 105 100 0 circleNode = some circleNode
    ∧ EllipseTree.point_in_obj 115 100 0 circleNode = none := by
  constructor <;>
  · simp only [circleNode, EllipseTree.point_in_obj, point_in_obj_children]
    norm_num

/-- Claim C3 (code_bug evaluation): `resume` always fails on a flight
plan whose working properties were set up by `start_forward_flight`
from an `fprops` dictionary without an `end_time` key — which is every
flight plan built by `FlightPlan.__init__` — because
`self.props['end_time'] += delta_time` raises `KeyError`. -/
theorem c3_resume_key_error (fpr : FPProps) (st pnow rnow : ℚ)
    (h : fpr.end_time = none) :
    resume (pause (start_forward_flight fpr st) pnow) rnow = none := by
  simp [resume, pause, start_forward_flight, h]

/-- Witness for `c3_resume_key_error`: the default `FlightPlan`
dictionary, started at 100, paused at 105, resumed at 110. -/
theorem c3_resume_key_error_witness :
    resume (pause (start_forward_flight baseFProps 100) 105) 110 = none :=
  c3_resume_key_error baseFProps 100 105 110 rfl

/-- Claim C2: for an unpaused flight plan with start time `s` and
duration `d ≥ 0`, the working time is exactly the clamp of `t - s` into
`[0, d]`: it is `0` for every `t ≤ s` (so the position is the position
at working time 0, the starting position) and exactly `d` for every
`t ≥ s + d` (clamped, never extrapolated). -/
theorem c2_forward_flight_clamped (p : FPProps) (s d t : ℚ)
    (hpause : p.pause_time = none) (hstart : p.start_time = some s)
    (hdur : p.duration = some d) (hd : 0 ≤ d) :
    calculate_time_from_zero p t = some (max 0 (min (t - s) d))
    ∧ (t ≤ s → calculate_time_from_zero p t = some 0)
    ∧ (s + d ≤ t → calculate_time_from_zero p t = some d)
    ∧ ∀ custom : ℚ → List ℚ,
        (t ≤ s → positionAt custom p t = some (custom 0))
        ∧ (s + d ≤ t → positionAt custom p t = some (custom d)) := by
  have hmain : calculate_time_from_zero p t = some (max 0 (min (t - s) d)) := by
    simp only [calculate_time_from_zero, hpause, hstart, hdur]
    by_cases h : t ≤ s
    · rw [if_pos h, min_eq_left (by linarith : t - s ≤ d),
        max_eq_left (by linarith : t - s ≤ 0)]
    · rw [if_neg h, max_eq_right (le_min (by linarith) hd)]
  have h0 : t ≤ s → calculate_time_from_zero p t = some 0 := fun h => by
    rw [hmain, min_eq_left (by linarith : t - s ≤ d),
      max_eq_left (by linarith : t - s ≤ 0)]
  have hend : s + d ≤ t → calculate_time_from_zero p t = some d := fun h => by
    rw [hmain, min_eq_right (by linarith : d ≤ t - s), max_eq_right hd]
  refine ⟨hmain, h0, hend, fun custom => ⟨fun h => ?_, fun h => ?_⟩⟩
  · show (calculate_time_from_zero p t).map custom = _
    rw [h0 h]; rfl
  · show (calculate_time_from_zero p t).map custom = _
    rw [hend h]; rfl

/-- Witness for `c2_forward_flight_clamped`: a flight plan started at 2
with duration 10, evaluated at `t = 1 ≤ 2`. -/
theorem c2_forward_flight_clamped_witness :
    calculate_time_from_zero ⟨some 2, none, some 10, none⟩ 1
        = some (max 0 (min ((1 : ℚ) - 2) 10))
    ∧ ((1 : ℚ) ≤ 2 → calculate_time_from_zero ⟨some 2, none, some 10, none⟩ 1 = some 0)
    ∧ ((2 : ℚ) + 10 ≤ 1 → calculate_time_from_zero ⟨some 2, none, some 10, none⟩ 1 = some 10)
    ∧ ∀ custom : ℚ → List ℚ,
        ((1 : ℚ) ≤ 2 → positionAt custom ⟨some 2, none, some 10, none⟩ 1 = some (custom 0))
        ∧ ((2 : ℚ) + 10 ≤ 1 → positionAt custom ⟨some 2, none, some 10, none⟩ 1 = some (custom 10)) :=
  c2_forward_flight_clamped ⟨some 2, none, some 10, none⟩ 2 10 1 rfl rfl rfl (by norm_num)

/-- Pointwise addition of rational lists is associative (`zipWith`
truncates to the shorter list on both sides). -/
theorem zipWithAdd_assoc (a b c : List ℚ) :
    List.zipWith (fun x y => x + y) a (List.zipWith (fun x y => x + y) b c)
      = List.zipWith (fun x y => x + y) (List.zipWith (fun x y => x + y) a b) c := by
  induction a generalizing b c with
  | nil => simp
  | cons ha ta ih =>
    cases b with
    | nil => simp
    | cons hb tb =>
      cases c with
      | nil => simp
      | cons hc tc => simp [ih, add_assoc]

/-- `addPos` succeeds and is plain pointwise addition whenever the local
position is at least as long as the parent's. -/
theorem addPos_eq (positions ppos : List ℚ) (h : ppos.length ≤ positions.length) :
    addPos positions ppos = some (List.zipWith (fun a b => a + b) positions ppos) := by
  rw [addPos, if_neg (by omega)]

/-- Claim C4: a node with no parent returns its unscaled local
trajectory position; a child's position is its local position scaled by
its own scale factor plus its parent's position at the same `t`,
recursively — and across two levels of nesting the pointwise composition
is associative. -/
theorem c4_parent_composition (pr0 pr1 pr2 : FPProps)
    (cu0 cu1 cu2 : ℚ → List ℚ) (s0 s1 s2 t z0 z1 z2 : ℚ)
    (h0 : calculate_time_from_zero pr0 t = some z0)
    (h1 : calculate_time_from_zero pr1 t = some z1)
    (h2 : calculate_time_from_zero pr2 t = some z2)
    (hlen1 : (cu0 z0).length ≤ (cu1 z1).length)
    (hlen2 : (cu1 z1).length ≤ (cu2 z2).length) :
    RChain.calculate_position (.root pr0 cu0 s0) t = some (cu0 z0)
    ∧ RChain.calculate_position (.child pr1 cu1 s1 (.root pr0 cu0 s0)) t
        = some (List.zipWith (fun a b => a + b)
            ((cu1 z1).map (fun x => x * s1)) (cu0 z0))
    ∧ RChain.calculate_position
          (.child pr2 cu2 s2 (.child pr1 cu1 s1 (.root pr0 cu0 s0))) t
        = some (List.zipWith (fun a b => a + b) ((cu2 z2).map (fun x => x * s2))
            (List.zipWith (fun a b => a + b)
              ((cu1 z1).map (fun x => x * s1)) (cu0 z0)))
    ∧ List.zipWith (fun a b => a + b) ((cu2 z2).map (fun x => x * s2))
          (List.zipWith (fun a b => a + b)
            ((cu1 z1).map (fun x => x * s1)) (cu0 z0))
        = List.zipWith (fun a b => a + b)
            (List.zipWith (fun a b => a + b)
              ((cu2 z2).map (fun x => x * s2)) ((cu1 z1).map (fun x => x * s1)))
            (cu0 z0) := by
  have hroot : RChain.calculate_position (.root pr0 cu0 s0) t = some (cu0 z0) := by
    simp [RChain.calculate_position, h0]
  have hchild : RChain.calculate_position (.child pr1 cu1 s1 (.root pr0 cu0 s0)) t
      = some (List.zipWith (fun a b => a + b)
          ((cu1 z1).map (fun x => x * s1)) (cu0 z0)) := by
    simp only [RChain.calculate_position, h0, h1, Option.map_some, Option.bind_some,
      Option.some_bind]
    exact addPos_eq _ _ (by simpa using hlen1)
  have hgrand : RChain.calculate_position
        (.child pr2 cu2 s2 (.child pr1 cu1 s1 (.root pr0 cu0 s0))) t
      = some (List.zipWith (fun a b => a + b) ((cu2 z2).map (fun x => x * s2))
          (List.zipWith (fun a b => a + b)
            ((cu1 z1).map (fun x => x * s1)) (cu0 z0))) := by
    rw [show RChain.calculate_position
          (.child pr2 cu2 s2 (.child pr1 cu1 s1 (.root pr0 cu0 s0))) t
        = (calculate_time_from_zero pr2 t).bind (fun tz =>
            (RChain.calculate_position (.child pr1 cu1 s1 (.root pr0 cu0 s0)) t).bind
              (fun ppos => addPos ((cu2 tz).map (fun x => x * s2)) ppos)) from rfl,
      h2, hchild]
    simp only [Option.some_bind]
    refine addPos_eq _ _ ?_
    have : (List.zipWith (fun a b => a + b)
        ((cu1 z1).map (fun x => x * s1)) (cu0 z0)).length ≤ (cu1 z1).length := by
      simp [List.length_zipWith]
    simp only [List.length_map]
    exact le_trans this hlen2
  exact ⟨hroot, hchild, hgrand, zipWithAdd_assoc _ _ _⟩

/-- Witness for `c4_parent_composition`: three nested nodes, all with
the trajectory `z ↦ [z, z + 1]` started at 0, scales 1/2/3, evaluated
at `t = 5`: the grandchild renders at `3·[5,6] + (2·[5,6] + [5,6])`. -/
theorem c4_parent_composition_witness :
    RChain.calculate_position
        (.child ⟨some 0, none, none, none⟩ (fun z => [z, z + 1]) 3
          (.child ⟨some 0, none, none, none⟩ (fun z => [z, z + 1]) 2
            (.root ⟨some 0, none, none, none⟩ (fun z => [z, z + 1]) 1))) 5
      = some [30, 36] := by
  have h := (c4_parent_composition ⟨some 0, none, none, none⟩
    ⟨some 0, none, none, none⟩ ⟨some 0, none, none, none⟩
    (fun z => [z, z + 1]) (fun z => [z, z + 1]) (fun z => [z, z + 1])
    1 2 3 5 5 5 5 (by norm_num [calculate_time_from_zero])
    (by norm_num [calculate_time_from_zero]) (by norm_num [calculate_time_from_zero])
    (le_refl _) (le_refl _)).2.2.1
  rw [h]
  norm_num [List.zipWith, List.map]

/-- Claim C5: a successful fetch completing at `t0` installs the new
dataset, stamps `t0`, and recomputes the next eligible fire time as
`t0 + max(cooldown_period, minimum_cooldown)`; a source whose
`next_fire_time` has elapsed is dispatched with its `next_fire_time`
cleared on the spot, and a cleared source can never be dispatched again
while the fetch is in flight. -/
theorem c5_cooldown_recompute {DF : Type} (ds : LayerDataSource DF) (df : DF)
    (t0 mc ct ct2 nft : ℚ)
    (hfire : ds.next_fire_time = some nft) (helapsed : nft ≤ ct) :
    processCompletion ds (some df) t0 mc
      = some { ds with
                data := df,
                data_last_fetch_time := some t0,
                next_fire_time := some (t0 + max ds.cooldown_period mc) }
    ∧ (dispatchCheck ds ct).2 = true
    ∧ (dispatchCheck ds ct).1.next_fire_time = none
    ∧ (dispatchCheck (dispatchCheck ds ct).1 ct2).2 = false
    ∧ (mc ≤ ds.cooldown_period →
        t0 + max ds.cooldown_period mc = t0 + ds.cooldown_period)
    ∧ (ds.cooldown_period ≤ mc → t0 + max ds.cooldown_period mc = t0 + mc) := by
  refine ⟨?_, ?_, ?_, ?_, ?_, ?_⟩
  · simp [processCompletion, set_data]
  · simp [dispatchCheck, hfire, helapsed]
  · simp [dispatchCheck, hfire, helapsed]
  · simp [dispatchCheck, hfire, helapsed]
  · intro h; rw [max_eq_left h]
  · intro h; rw [max_eq_right h]

/-- Witness for `c5_cooldown_recompute`: a source with cooldown 5 and
`next_fire_time = 2`, dispatched at time 3; its fetch result `(7 : ℚ)`
completes at `t0 = 10` under `minimum_cooldown = 3`. -/
theorem c5_cooldown_recompute_witness :
    processCompletion (⟨5, 0, none, some 2⟩ : LayerDataSource ℚ) (some 7) 10 3
      = some { (⟨5, 0, none, some 2⟩ : LayerDataSource ℚ) with
                data := 7,
                data_last_fetch_time := some 10,
                next_fire_time := some (10 + max 5 3) }
    ∧ (dispatchCheck (⟨5, 0, none, some 2⟩ : LayerDataSource ℚ) 3).2 = true
    ∧ (dispatchCheck (⟨5, 0, none, some 2⟩ : LayerDataSource ℚ) 3).1.next_fire_time = none
    ∧ (dispatchCheck (dispatchCheck (⟨5, 0, none, some 2⟩ : LayerDataSource ℚ) 3).1 4).2 = false
    ∧ ((3 : ℚ) ≤ 5 → (10 : ℚ) + max 5 3 = 10 + 5)
    ∧ ((5 : ℚ) ≤ 3 → (10 : ℚ) + max 5 3 = 10 + 3) :=
  c5_cooldown_recompute (⟨5, 0, none, some 2⟩ : LayerDataSource ℚ) 7 10 3 3 4 2
    rfl (by norm_num)

/-- Claim C6 counterexample: a source that has **never** completed a
successful fetch (`data_last_fetch_time = None`) whose fetch raises: the
rescheduling line `ds.next_fire_time = ds.data_last_fetch_time +
timedelta(...)` runs outside the `try` and raises `TypeError`
(`None + timedelta`), aborting the scheduler loop instead of retrying
the source after its cooldown. -/
theorem c6_never_fetched_crash :
    processCompletion (⟨5, 0, none, some 0⟩ : LayerDataSource ℚ) none 10 3 = none :=
  rfl

/-- Claim C6 (amended): when the failing source has completed at least
one successful fetch (`data_last_fetch_time = some T`), the raising
fetch leaves the dataset and the last-fetch timestamp bit-for-bit
unchanged (the error is only logged) and `next_fire_time` is recomputed
as `T + max(cooldown_period, minimum_cooldown)`. -/
theorem c6_error_keeps_data_and_reschedules {DF : Type}
    (ds : LayerDataSource DF) (T now mc : ℚ)
    (h : ds.data_last_fetch_time = some T) :
    processCompletion ds none now mc
      = some { ds with next_fire_time := some (T + max ds.cooldown_period mc) } := by
  simp [processCompletion, h]

/-- Witness for `c6_error_keeps_data_and_reschedules`: a source with
cooldown 5, dataset `42`, last successful fetch at 2; its next fetch
raises at time 10 under `minimum_cooldown = 3`. -/
theorem c6_error_keeps_data_and_reschedules_witness :
    processCompletion (⟨5, 42, some 2, some 7⟩ : LayerDataSource ℚ) none 10 3
      = some { (⟨5, 42, some 2, some 7⟩ : LayerDataSource ℚ) with
                next_fire_time := some (2 + max 5 3) } :=
  c6_error_keeps_data_and_reschedules (⟨5, 42, some 2, some 7⟩ : LayerDataSource ℚ)
    2 10 3 rfl

/-- Marking a renderer dirty never removes a name already in the set. -/
theorem markDirty_mono (k a : String) (rs : List (String × LayerRenderer))
    (dirty : List String) (h : a ∈ dirty) : a ∈ markDirty k rs dirty := by
  induction rs generalizing dirty with
  | nil => exact h
  | cons hd tl ih =>
    obtain ⟨rn, r⟩ := hd
    simp only [markDirty]
    refine ih _ ?_
    split_ifs
    · exact List.mem_append_left _ h
    · exact h

/-- A renderer subscribed to the completed source `k` always ends up in
the dirty set. -/
theorem markDirty_mem_of (k R : String) (r : LayerRenderer)
    (rs : List (String × LayerRenderer)) (dirty : List String)
    (hmem : (R, r) ∈ rs) (hsub : k ∈ r.subscribed_datasources) :
    R ∈ markDirty k rs dirty := by
  induction rs generalizing dirty with
  | nil => cases hmem
  | cons hd tl ih =>
    obtain ⟨rn, r2⟩ := hd
    simp only [markDirty]
    rcases List.mem_cons.mp hmem with heq | htl
    · injection heq with h1 h2
      subst h1; subst h2
      apply markDirty_mono
      by_cases hd2 : R ∈ dirty
      · split_ifs with hc
        · exact List.mem_append_left _ hd2
        · exact hd2
      · rw [if_pos ⟨hsub, hd2⟩]
        exact List.mem_append_right _ (List.mem_singleton_self R)
    · exact ih _ htl

/-- A renderer name is appended only when absent, so the dirty set stays
duplicate-free. -/
theorem markDirty_nodup (k : String) (rs : List (String × LayerRenderer))
    (dirty : List String) (h : dirty.Nodup) : (markDirty k rs dirty).Nodup := by
  induction rs generalizing dirty with
  | nil => exact h
  | cons hd tl ih =>
    obtain ⟨rn, r⟩ := hd
    simp only [markDirty]
    refine ih _ ?_
    split_ifs with hc
    · simp [List.nodup_append, h, hc.2]
    · exact h

/-- Names already dirty before completion polling are still dirty after. -/
theorem processCompletions_mono {DF : Type} (rs : List (String × LayerRenderer))
    (now mc : ℚ) (cs : List (String × Option DF)) :
    ∀ (sources s2 : List (String × LayerDataSource DF)) (dirty0 dirty2 : List String)
      (a : String),
      processCompletions rs now mc sources cs dirty0 = some (s2, dirty2) →
      a ∈ dirty0 → a ∈ dirty2 := by
  induction cs with
  | nil =>
    intro sources s2 dirty0 dirty2 a hrun ha
    simp only [processCompletions, Option.some.injEq, Prod.mk.injEq] at hrun
    obtain ⟨-, rfl⟩ := hrun
    exact ha
  | cons hd tl ih =>
    intro sources s2 dirty0 dirty2 a hrun ha
    obtain ⟨k, result⟩ := hd
    simp only [processCompletions] at hrun
    cases h1 : alookup k sources with
    | none => simp [h1] at hrun
    | some ds =>
      simp only [h1, Option.some_bind'] at hrun
      cases h2 : processCompletion ds result now mc with
      | none => simp [h2] at hrun
      | some ds2 =>
        simp only [h2, Option.some_bind'] at hrun
        exact ih _ _ _ _ _ hrun (markDirty_mono _ _ _ _ ha)

/-- Completion polling keeps the dirty set duplicate-free. -/
theorem processCompletions_nodup {DF : Type} (rs : List (String × LayerRenderer))
    (now mc : ℚ) (cs : List (String × Option DF)) :
    ∀ (sources s2 : List (String × LayerDataSource DF)) (dirty0 dirty2 : List String),
      processCompletions rs now mc sources cs dirty0 = some (s2, dirty2) →
      dirty0.Nodup → dirty2.Nodup := by
  induction cs with
  | nil =>
    intro sources s2 dirty0 dirty2 hrun h0
    simp only [processCompletions, Option.some.injEq, Prod.mk.injEq] at hrun
    obtain ⟨-, rfl⟩ := hrun
    exact h0
  | cons hd tl ih =>
    intro sources s2 dirty0 dirty2 hrun h0
    obtain ⟨k, result⟩ := hd
    simp only [processCompletions] at hrun
    cases h1 : alookup k sources with
    | none => simp [h1] at hrun
    | some ds =>
      simp only [h1, Option.some_bind'] at hrun
      cases h2 : processCompletion ds result now mc with
      | none => simp [h2] at hrun
      | some ds2 =>
        simp only [h2, Option.some_bind'] at hrun
        exact ih _ _ _ _ hrun (markDirty_nodup _ _ _ h0)

/-- Any renderer subscribed to any source whose fetch completed in this
tick is in the final dirty set. -/
theorem processCompletions_dirty_of {DF : Type} (rs : List (String × LayerRenderer))
    (now mc : ℚ) (cs : List (String × Option DF)) :
    ∀ (sources s2 : List (String × LayerDataSource DF)) (dirty0 dirty2 : List String)
      (k : String) (result : Option DF) (R : String) (r : LayerRenderer),
      processCompletions rs now mc sources cs dirty0 = some (s2, dirty2) →
      (k, result) ∈ cs → (R, r) ∈ rs → k ∈ r.subscribed_datasources →
      R ∈ dirty2 := by
  induction cs with
  | nil =>
    intro sources s2 dirty0 dirty2 k result R r hrun hcs
    cases hcs
  | cons hd tl ih =>
    intro sources s2 dirty0 dirty2 k result R r hrun hcs hmem hsub
    obtain ⟨k2, res2⟩ := hd
    simp only [processCompletions] at hrun
    cases h1 : alookup k2 sources with
    | none => simp [h1] at hrun
    | some ds =>
      simp only [h1, Option.some_bind'] at hrun
      cases h2 : processCompletion ds res2 now mc with
      | none => simp [h2] at hrun
      | some ds2 =>
        simp only [h2, Option.some_bind'] at hrun
        rcases List.mem_cons.mp hcs with heq | htl
        · injection heq with hk hres
          subst hk
          exact processCompletions_mono rs now mc tl _ _ _ _ _ hrun
            (markDirty_mem_of k R r rs dirty0 hmem hsub)
        · exact ih _ _ _ _ _ _ _ _ hrun htl hmem hsub

/-- When every dirty renderer exists in the registry and all of its
subscriptions resolve, the update phase processes each dirty renderer
exactly once, handing it the dataset dictionary built from its
subscribed sources' current data, and records a raising recompute step
as a logged failure without aborting the remaining renderers. -/
theorem processDirty_spec {DF : Type} (rs : List (String × LayerRenderer))
    (srcs : List (String × LayerDataSource DF))
    (recompute : String → List (String × DF) → Option Unit) :
    ∀ dirty : List String,
      (∀ n ∈ dirty, ∃ rn dd, alookup n rs = some rn
        ∧ buildDataDict rn.subscribed_datasources srcs = some dd) →
      ∃ results, processDirty rs srcs recompute dirty = some results
        ∧ results.map Prod.fst = dirty
        ∧ ∀ p ∈ results, ∃ rn dd, alookup p.1 rs = some rn
            ∧ buildDataDict rn.subscribed_datasources srcs = some dd
            ∧ p.2 = (recompute p.1 dd).isSome := by
  intro dirty
  induction dirty with
  | nil => intro _; exact ⟨[], rfl, rfl, by simp⟩
  | cons n rest ih =>
    intro h
    obtain ⟨rn, dd, h1, h2⟩ := h n (List.mem_cons_self n rest)
    obtain ⟨tailres, ht1, ht2, ht3⟩ := ih (fun m hm => h m (List.mem_cons_of_mem _ hm))
    refine ⟨(n, (recompute n dd).isSome) :: tailres, ?_, ?_, ?_⟩
    · simp only [processDirty, h1, h2, ht1, Option.some_bind']
    · simp [ht2]
    · intro p hp
      rcases List.mem_cons.mp hp with rfl | hp2
      · exact ⟨rn, dd, h1, h2, rfl⟩
      · exact ht3 p hp2

/-- Claim C7: within one scheduler tick, the dirty-renderer set is
deduplicated — a renderer `R` subscribed to two (or more) sources that
both complete in the tick appears in the dirty set with multiplicity
exactly 1, so `on_data_changed` is invoked exactly once for the tick —
the invocation receives the dataset dictionary merged from all of `R`'s
subscribed sources' current data, and a raising recompute step is
caught and logged per renderer without aborting the loop or the other
dirty renderers. -/
theorem c7_dirty_dedup_and_isolation {DF : Type}
    (rs : List (String × LayerRenderer)) (now mc : ℚ)
    (srcs s2 : List (String × LayerDataSource DF)) (cs : List (String × Option DF))
    (dirty2 : List String)
    (recompute : String → List (String × DF) → Option Unit)
    (R : String) (r : LayerRenderer) (k1 k2 : String) (res1 res2 : Option DF)
    (hrun : processCompletions rs now mc srcs cs [] = some (s2, dirty2))
    (hmem : (R, r) ∈ rs)
    (hc1 : (k1, res1) ∈ cs) (_hc2 : (k2, res2) ∈ cs)
    (hs1 : k1 ∈ r.subscribed_datasources) (_hs2 : k2 ∈ r.subscribed_datasources)
    (hlook : ∀ n ∈ dirty2, ∃ rn dd, alookup n rs = some rn
      ∧ buildDataDict rn.subscribed_datasources s2 = some dd) :
    dirty2.count R = 1
    ∧ ∃ results, processDirty rs s2 recompute dirty2 = some results
        ∧ results.map Prod.fst = dirty2
        ∧ ∀ p ∈ results, ∃ rn dd, alookup p.1 rs = some rn
            ∧ buildDataDict rn.subscribed_datasources s2 = some dd
            ∧ p.2 = (recompute p.1 dd).isSome := by
  constructor
  · exact List.count_eq_one_of_mem
      (processCompletions_nodup rs now mc cs srcs s2 [] dirty2 hrun List.nodup_nil)
      (processCompletions_dirty_of rs now mc cs srcs s2 [] dirty2 k1 res1 R r
        hrun hc1 hmem hs1)
  · exact processDirty_spec rs s2 recompute dirty2 hlook

/-- Witness for `c7_dirty_dedup_and_isolation`: sources `s1` and `s2`
both complete at time 10 in one tick; renderer `R` subscribes to both
and its recompute step raises (`fun _ _ => none`). -/
theorem c7_dirty_dedup_and_isolation_witness :
    (["R"] : List String).count "R" = 1
    ∧ ∃ results, processDirty exRenderers exSources2
          (fun _ _ => (none : Option Unit)) ["R"] = some results
        ∧ results.map Prod.fst = ["R"]
        ∧ ∀ p ∈ results, ∃ rn dd, alookup p.1 exRenderers = some rn
            ∧ buildDataDict rn.subscribed_datasources exSources2 = some dd
            ∧ p.2 = ((fun (_ : String) (_ : List (String × ℚ)) => (none : Option Unit))
                p.1 dd).isSome :=
  c7_dirty_dedup_and_isolation exRenderers 10 3 exSources exSources2 exCompletions
    ["R"] (fun _ _ => none) "R" ⟨["s1", "s2"]⟩ "s1" "s2" (some 11) (some 22)
    rfl (by simp [exRenderers]) (by simp [exCompletions]) (by simp [exCompletions])
    (by decide) (by decide)
    (by
      intro n hn
      have hn2 : n = "R" := by simpa using hn
      subst hn2
      exact ⟨⟨["s1", "s2"]⟩, [("s1", 11), ("s2", 22)], rfl, rfl⟩)

/-- A dictionary comprehension over subscribed source names raises
`KeyError` as soon as any name is absent from the registry. -/
theorem buildDataDict_missing {DF : Type} (subs : List String)
    (sources : List (String × LayerDataSource DF)) (d : String)
    (hd : d ∈ subs) (hmiss : alookup d sources = none) :
    buildDataDict subs sources = none := by
  induction subs with
  | nil => cases hd
  | cons s rest ih =>
    simp only [buildDataDict]
    rcases List.mem_cons.mp hd with rfl | hrest
    · rw [hmiss]; rfl
    · cases h1 : alookup s sources with
      | none => rfl
      | some ds => simp only [Option.some_bind', ih hrest]; rfl

/-- Claim C9 counterexample: renderer `R` subscribes to the present
source `S` and the absent name `M`; the dirty-renderer update crashes
(`none`, the uncaught `KeyError` killing the scheduler thread) instead
of continuing with a merged view that merely lacks `M`'s data. -/
theorem c9_missing_source_crash_eval :
    processDirty [("R", (⟨["S", "M"]⟩ : LayerRenderer))]
      [("S", (⟨5, 0, none, some 0⟩ : LayerDataSource ℚ))]
      (fun _ _ => some ()) ["R"] = none := rfl

/-- Claim C9 (amended): a dirty renderer whose subscription list names a
source absent from the registry makes the dirty-renderer update raise an
uncaught `KeyError`, aborting the scheduler loop; the update survives
only when every subscribed name resolves. -/
theorem c9_missing_source_aborts {DF : Type} (rs : List (String × LayerRenderer))
    (srcs : List (String × LayerDataSource DF))
    (recompute : String → List (String × DF) → Option Unit)
    (n d : String) (rn : LayerRenderer) (rest : List String)
    (h1 : alookup n rs = some rn)
    (hd : d ∈ rn.subscribed_datasources)
    (hmiss : alookup d srcs = none) :
    processDirty rs srcs recompute (n :: rest) = none := by
  simp only [processDirty, h1, Option.some_bind',
    buildDataDict_missing rn.subscribed_datasources srcs d hd hmiss]
  rfl

/-- Witness for `c9_missing_source_aborts`: renderer `R2` subscribes to
the present source `A` and the absent name `M2`. -/
theorem c9_missing_source_aborts_witness :
    processDirty [("R2", (⟨["A", "M2"]⟩ : LayerRenderer))]
      [("A", (⟨1, 0, none, none⟩ : LayerDataSource ℚ))]
      (fun _ _ => some ()) ["R2"] = none :=
  c9_missing_source_aborts _ _ _ "R2" "M2" ⟨["A", "M2"]⟩ [] rfl (by decide) rfl

/-- Membership is invariant under the keep-last dedup. -/
theorem mem_dedupKeepLast (a : String) (l : List String) :
    a ∈ dedupKeepLast l ↔ a ∈ l := by
  induction l with
  | nil => simp [dedupKeepLast]
  | cons x rest ih =>
    simp only [dedupKeepLast]
    split_ifs with hx
    · rw [ih]
      constructor
      · exact fun h => List.mem_cons_of_mem _ h
      · intro h
        rcases List.mem_cons.mp h with rfl | h2
        exacts [hx, h2]
    · simp [List.mem_cons, ih]

/-- The accumulated index union keeps everything already accumulated. -/
theorem mem_foldl_append_init (l : List (String × DataFrame)) (init : List String)
    (x : String) (hx : x ∈ init) :
    x ∈ l.foldl (fun acc kv => acc ++ kv.2.idx) init := by
  induction l generalizing init with
  | nil => exact hx
  | cons hd tl ih => exact ih _ (List.mem_append_left _ hx)

/-- The accumulated index union contains every member frame's rows. -/
theorem mem_foldl_append_of_mem (l : List (String × DataFrame)) (init : List String)
    (k : String) (df : DataFrame) (x : String) (hmem : (k, df) ∈ l) (hx : x ∈ df.idx) :
    x ∈ l.foldl (fun acc kv => acc ++ kv.2.idx) init := by
  induction l generalizing init with
  | nil => cases hmem
  | cons hd tl ih =>
    obtain ⟨k2, df2⟩ := hd
    simp only [List.foldl_cons]
    rcases List.mem_cons.mp hmem with heq | htl
    · injection heq with h1 h2
      subst h2
      exact mem_foldl_append_init _ _ _ (List.mem_append_right _ hx)
    · exact ih _ htl

/-- Repeated column assignment never changes the row index. -/
theorem foldl_assignColumns_idx (l : List (String × DataFrame)) (init : DataFrame) :
    (l.foldl (fun acc kv => assignColumns acc kv.2) init).idx = init.idx := by
  induction l generalizing init with
  | nil => rfl
  | cons hd tl ih =>
    simp only [List.foldl_cons]
    rw [ih]
    rfl

/-- After all column assignments, a cell holds the value from the
**last** source (in dictionary order) that provides its column — the
later assignment `df[c] = df_new[c]` overwrites the earlier one — and
`NaN` (`none`) when that source lacks the row; cells of columns no
source provides keep the initial frame's value. -/
theorem foldl_assignColumns_cell (l : List (String × DataFrame)) (init : DataFrame)
    (r c : String) :
    (l.foldl (fun acc kv => assignColumns acc kv.2) init).cell r c
      = (match lastProvider c l with
        | some src => if r ∈ dedupKeepLast src.idx then src.cell r c else none
        | none => init.cell r c) := by
  induction l generalizing init with
  | nil => rfl
  | cons hd tl ih =>
    simp only [List.foldl_cons, lastProvider]
    rw [ih]
    cases h : lastProvider c tl with
    | some src => rfl
    | none =>
      simp only [assignColumns]
      by_cases hc : c ∈ hd.2.cols
      · simp [hc]
      · simp [hc]

theorem mergedAll_idx (l : List (String × DataFrame)) (uidx : List String) :
    (mergedAll l uidx).idx = uidx :=
  foldl_assignColumns_idx l _

theorem mergedAll_cell (l : List (String × DataFrame)) (uidx : List String)
    (r c : String) :
    (mergedAll l uidx).cell r c
      = (match lastProvider c l with
        | some src => if r ∈ dedupKeepLast src.idx then src.cell r c else none
        | none => none) := by
  rw [mergedAll, foldl_assignColumns_cell]

/-- A successful dictionary lookup means the pair is in the list. -/
theorem alookup_mem {β : Type} (k : String) (l : List (String × β)) (v : β)
    (h : alookup k l = some v) : (k, v) ∈ l := by
  induction l with
  | nil => cases h
  | cons hd tl ih =>
    obtain ⟨k2, v2⟩ := hd
    simp only [alookup] at h
    split_ifs at h with he
    · injection h with hv
      subst he; subst hv
      exact List.mem_cons_self _ _
    · exact List.mem_cons_of_mem _ (ih h)

/-- Claim C8: when the dictionary holds a `data_coords` entry, the merge
succeeds, the merged frame's row domain is **exactly** the coordinate
frame's row index, and every cell of a row in that domain holds the
value from the last source in dictionary (= subscription) order that
provides the column — later sources win — or `NaN`/`none` when no
source provides it or the winning source lacks the row. -/
theorem c8_merge_domain_and_last_wins (data_dict : List (String × DataFrame))
    (coords : DataFrame)
    (hc : alookup "data_coords" data_dict = some coords) :
    ∃ res, data_dict_to_df data_dict = some res
      ∧ res.idx = coords.idx
      ∧ ∀ r c, r ∈ coords.idx →
          res.cell r c = (match lastProvider c data_dict with
            | some src => if r ∈ dedupKeepLast src.idx then src.cell r c else none
            | none => none) := by
  cases data_dict with
  | nil => simp [alookup] at hc
  | cons hd rest =>
    obtain ⟨k0, df0⟩ := hd
    have hguard : ∀ r ∈ coords.idx,
        r ∈ (mergedAll ((k0, df0) :: rest) (unionIdx df0 rest)).idx := by
      intro r hr
      rw [mergedAll_idx, unionIdx, mem_dedupKeepLast]
      have hmem := alookup_mem "data_coords" ((k0, df0) :: rest) coords hc
      rcases List.mem_cons.mp hmem with heq | htl
      · injection heq with h1 h2
        subst h2
        exact mem_foldl_append_init _ _ _ hr
      · exact mem_foldl_append_of_mem rest _ "data_coords" coords r htl hr
    refine ⟨{ idx := coords.idx
            , cols := (mergedAll ((k0, df0) :: rest) (unionIdx df0 rest)).cols
            , cell := fun r c => if r ∈ coords.idx
                then (mergedAll ((k0, df0) :: rest) (unionIdx df0 rest)).cell r c
                else none }, ?_, rfl, ?_⟩
    · simp only [data_dict_to_df, hc, Option.some_bind']
      rw [if_pos hguard]
    · intro r c hr
      simp only [if_pos hr]
      exact mergedAll_cell ((k0, df0) :: rest) (unionIdx df0 rest) r c

/-- Witness for `c8_merge_domain_and_last_wins`: the spec's example —
sources over `{A, B}` and `{B, C}` with coordinate domain `{A, B, C}`
merge to exactly `{A, B, C}`, and for column `X` the later source
(`exDf2`) wins. -/
theorem c8_merge_domain_and_last_wins_witness :
    ∃ res, data_dict_to_df exDataDict = some res
      ∧ res.idx = exCoords.idx
      ∧ ∀ r c, r ∈ exCoords.idx →
          res.cell r c = (match lastProvider c exDataDict with
            | some src => if r ∈ dedupKeepLast src.idx then src.cell r c else none
            | none => none) :=
  c8_merge_domain_and_last_wins exDataDict exCoords rfl

/-- Claim C10 counterexample: the well-formed three-component string
`rgba(1, 2, 3)` decodes to the 3-element list `[1, 2, 3]` — neither a
4-element list nor the `[0, 0, 0, 0]` fallback — and
`color_calculate_glow` on it raises `IndexError` (`none`) even with a
4-element attenuation list, so neither half of the claim holds. -/
theorem c10_three_component_raises :
    (color_decode "rgba(1, 2, 3)").length = 3
    ∧ color_decode "rgba(1, 2, 3)" = [1, 2, 3]
    ∧ color_calculate_glow "rgba(1, 2, 3)" [1, 1, 1, 1] = none :=
  ⟨rfl, rfl, rfl⟩

/-- Claim C10 (amended): `color_decode` is total — any failure yields
`[0, 0, 0, 0]` (e.g. `color_decode "black"`), and a well-formed
`rgba(...)` string yields the list of its parsed components, which has
4 elements only when there are exactly four components.
`color_calculate_glow` multiplies channels 0–3 of the decoded color by
the per-channel attenuation factors and never raises **provided** both
the decoded list and the attenuation list have at least four
elements; with fewer decoded components (see the counterexample) it
raises `IndexError`. -/
theorem c10_glow_total_on_four_channels (s : String) (att : List ℚ)
    (h1 : 4 ≤ (color_decode s).length) (h2 : 4 ≤ att.length) :
    color_calculate_glow s att
      = color_encode ((List.range 4).map
          (fun i => (color_decode s).getD i 0 * att.getD i 0))
    ∧ (color_calculate_glow s att).isSome = true
    ∧ color_decode "black" = [0, 0, 0, 0] := by
  have he : color_calculate_glow s att
      = color_encode ((List.range 4).map
          (fun i => (color_decode s).getD i 0 * att.getD i 0)) := by
    simp only [color_calculate_glow]
    rw [if_pos ⟨h1, h2⟩]
  refine ⟨he, ?_, rfl⟩
  rw [he]
  simp only [color_encode]
  rw [if_pos (by simp)]
  rfl

/-- Witness for `c10_glow_total_on_four_channels`: a four-component
stroke style and the default-shaped attenuation list. -/
theorem c10_glow_total_on_four_channels_witness :
    color_calculate_glow "rgba(8, 16, 24, 1)" [1, 1, 1, 1]
      = color_encode ((List.range 4).map
          (fun i => (color_decode "rgba(8, 16, 24, 1)").getD i 0
            * ([1, 1, 1, 1] : List ℚ).getD i 0))
    ∧ (color_calculate_glow "rgba(8, 16, 24, 1)" [1, 1, 1, 1]).isSome = true
    ∧ color_decode "black" = [0, 0, 0, 0] :=
  c10_glow_total_on_four_channels "rgba(8, 16, 24, 1)" [1, 1, 1, 1]
    (by decide) (by norm_num)

end PyLinkJSDrawing
